import Mathlib

/-!
Verification of the PON monitoring polling pipeline (`src/pon-monitoring`).

Shallow embedding conventions:
- Python floats and ints are modelled as `ℚ` and `ℤ`; the arithmetic the
  pipeline performs (divisions by powers of ten, comparisons, min/max) is
  exact on the concrete values involved, so `ℚ` is a faithful model.
- A Python value that may be `None` is an `Option`.
- Python dictionaries holding the per-port metrics are modelled by the
  `MetricSet` structure whose fields are all optional; `dict.get(k)` is the
  `Option` field itself and `dict.get(k, 0)` is `Option.getD 0`.
- Code that can raise returns `Except PyErr`; a `try/except` block is an
  explicit match on that result.
- Wall-clock timestamps (`datetime.utcnow`) and log formatting are not
  modelled; they do not affect any property below.
-/

namespace PonMonitoring

/-- Python exception values that the embedded code can raise.  The poller
never inspects the exception payload, only catches it, so a small inductive
suffices. -/
inductive PyErr where
  | keyError
  | dbError
  | sinkError
  | snmpError
deriving DecidableEq

/-- Normalized per-port metric snapshot, the `metrics` dict built by
`snmp_get_pon_metrics` and consumed by scoring, alerting and the sinks
(`src/pon-monitoring/poller.py`).  Every field is optional: an absent field
models a key that is missing from the dict or mapped to `None`. -/
structure MetricSet where
  temperature : Option ℚ := none
  voltage : Option ℚ := none
  tx_power : Option ℚ := none
  rx_power : Option ℚ := none
  utilization : Option ℚ := none
  bandwidth_in : Option ℤ := none
  bandwidth_out : Option ℤ := none
  online_onus : Option ℤ := none
  offline_onus : Option ℤ := none
  total_onus : Option ℤ := none
deriving DecidableEq

/-- Python's `x or 0` applied to an optional float: `None` and `0.0` are both
falsy and give `0`; any other value passes through.  Semantically this is
`Option.getD 0`, but we keep the falsy test to mirror the source. -/
def pyOrZeroQ (o : Option ℚ) : ℚ :=
  match o with
  | none => 0
  | some v => if v = 0 then 0 else v

/-- Python's `x or 0` applied to an optional int. -/
def pyOrZeroZ (o : Option ℤ) : ℤ :=
  match o with
  | none => 0
  | some v => if v = 0 then 0 else v

/-- Python's `round` at a half-way point rounds to the nearest even integer
(banker's rounding). -/
def roundHalfEven (q : ℚ) : ℤ :=
  let n := ⌊q⌋
  let r := q - (n : ℚ)
  if r < 1 / 2 then n
  else if r > 1 / 2 then n + 1
  else if n % 2 = 0 then n else n + 1

/-- Python's `round(q, 2)`: round to two decimal places, halves to even. -/
def pythonRound2 (q : ℚ) : ℚ :=
  (roundHalfEven (q * 100) : ℚ) / 100

namespace ZTEVendor

/-- OID table `ZTEVendor.PON_PORT_OIDS` from
`src/pon-monitoring/vendors/zte.py`. -/
def PON_PORT_OIDS : List (String × String) :=
  [("temperature", "1.3.6.1.4.1.3902.1082.500.10.2.3.1.1.2"),
   ("voltage", "1.3.6.1.4.1.3902.1082.500.10.2.3.1.1.3"),
   ("tx_power", "1.3.6.1.4.1.3902.1082.500.10.2.3.1.1.4"),
   ("rx_power", "1.3.6.1.4.1.3902.1082.500.10.2.3.1.1.5"),
   ("tx_bias", "1.3.6.1.4.1.3902.1082.500.10.2.3.1.1.6"),
   ("bandwidth_in", "1.3.6.1.2.1.2.2.1.10"),
   ("bandwidth_out", "1.3.6.1.2.1.2.2.1.16")]

/-- `ZTEVendor.parse_power` (`vendors/zte.py`): `None` or raw `0` is
invalid, otherwise raw `/ 100.0`. -/
def parse_power (value : Option ℚ) : Option ℚ :=
  match value with
  | none => none
  | some v => if v = 0 then none else some (v / 100)

/-- `ZTEVendor.parse_temperature` (`vendors/zte.py`): raw `/ 256.0`. -/
def parse_temperature (value : Option ℚ) : Option ℚ :=
  value.map (fun v => v / 256)

/-- `ZTEVendor.parse_voltage` (`vendors/zte.py`): raw `/ 10000.0`. -/
def parse_voltage (value : Option ℚ) : Option ℚ :=
  value.map (fun v => v / 10000)

/-- `ZTEVendor.calculate_utilization` (`vendors/zte.py`): signature
`(bandwidth_in, bandwidth_out, port_capacity=10000000000)`; returns
`min(100, (bandwidth_in + bandwidth_out) / port_capacity * 100)`, with `0.0`
when either counter is `None`.  Note: no `* 8`, no interval argument, no
lower clamp. -/
def calculate_utilization (bandwidth_in bandwidth_out : Option ℚ)
    (port_capacity : ℚ := 10000000000) : ℚ :=
  match bandwidth_in, bandwidth_out with
  | some bin, some bout =>
    let total_bandwidth := bin + bout
    let utilization := total_bandwidth / port_capacity * 100
    min 100 utilization
  | _, _ => 0

end ZTEVendor

namespace FiberHomeVendor

/-- `FiberHomeVendor.parse_power` (`vendors/fiberhome.py`): raw `/ 100.0`,
invalid when the converted value is above `50` or below `-50`. -/
def parse_power (raw_value : ℚ) : Option ℚ :=
  let value := raw_value / 100
  if value > 50 ∨ value < -50 then none else some value

/-- `FiberHomeVendor.calculate_utilization` (`vendors/fiberhome.py`):
`(traffic_in, traffic_out, interval, max_bandwidth)`, guarded to `0.0` when
`interval <= 0` or `max_bandwidth <= 0`, else
`min(max((((in+out)*8/interval)/1e6)/max_bandwidth*100, 0), 100)`.
`max_bandwidth` has no default value for this vendor. -/
def calculate_utilization (traffic_in traffic_out interval max_bandwidth : ℚ) : ℚ :=
  if interval ≤ 0 ∨ max_bandwidth ≤ 0 then 0
  else
    let total_bits := (traffic_in + traffic_out) * 8
    let current_mbps := (total_bits / interval) / 1000000
    let utilization := (current_mbps / max_bandwidth) * 100
    min (max utilization 0) 100

end FiberHomeVendor

namespace VSOLVendor

/-- `VSOLVendor.parse_power` (`vendors/vsol.py`): `value = raw / 100.0`;
invalid when `value == 0 or value < -40 or value > 10`, else
`round(value, 2)`.  The `try/except` for non-numeric input is outside the
model, whose input is already a number. -/
def parse_power (raw_value : ℚ) : Option ℚ :=
  let value := raw_value / 100
  if value = 0 ∨ value < -40 ∨ value > 10 then none
  else some (pythonRound2 value)

/-- `VSOLVendor.calculate_utilization` (`vendors/vsol.py`):
`(bytes_in, bytes_out, interval, max_bandwidth=2500)`, guarded to `0.0` when
`interval <= 0` or `max_bandwidth <= 0`, else converts to Mbps and clamps:
`min(max(utilization, 0), 100)`. -/
def calculate_utilization (bytes_in bytes_out interval : ℚ)
    (max_bandwidth : ℚ := 2500) : ℚ :=
  if interval ≤ 0 ∨ max_bandwidth ≤ 0 then 0
  else
    let total_bytes := bytes_in + bytes_out
    let bps := total_bytes * 8 / interval
    let mbps := bps / 1000000
    let utilization := mbps / max_bandwidth * 100
    min (max utilization 0) 100

end VSOLVendor

/-- Modelled from the spec: the shared reference utilization formula of
spec section 4.1,
`min(100, max(0, ((bytesIn+bytesOut)*8 / intervalSeconds / 1e6) / maxBandwidthMbps * 100))`,
stated for comparison with the per-vendor implementations. -/
def refUtilization (bytesIn bytesOut intervalSeconds maxBandwidthMbps : ℚ) : ℚ :=
  min 100 (max 0 ((bytesIn + bytesOut) * 8 / intervalSeconds / 1000000 / maxBandwidthMbps * 100))

/-- `PONPortPoller.calculate_health_score` (`poller.py` lines 281-320).
The sequential `score` mutations of the source become sequential `let`
bindings; the Python truthiness guards `if temperature:` and `if rx_power:`
(false for `None` and for `0.0`) become a match plus a `= 0` test. -/
def calculate_health_score (metrics : MetricSet) : ℤ :=
  let score1 : ℤ := 100
  let utilization := metrics.utilization.getD 0
  let score2 :=
    if utilization > 90 then score1 - 30
    else if utilization > 80 then score1 - 20
    else if utilization > 70 then score1 - 10
    else score1
  let score3 :=
    match metrics.temperature with
    | none => score2
    | some temperature =>
      if temperature = 0 then score2
      else if temperature > 70 then score2 - 20
      else if temperature > 60 then score2 - 10
      else score2
  let score4 :=
    match metrics.rx_power with
    | none => score3
    | some rx_power =>
      if rx_power = 0 then score3
      else if rx_power < -30 then score3 - 30
      else if rx_power < -28 then score3 - 15
      else score3
  let total_onus := metrics.total_onus.getD 0
  let offline_onus := metrics.offline_onus.getD 0
  let score5 :=
    if total_onus > 0 then
      if (offline_onus : ℚ) / (total_onus : ℚ) > 3 / 10 then score4 - 20
      else if (offline_onus : ℚ) / (total_onus : ℚ) > 2 / 10 then score4 - 10
      else score4
    else score4
  max 0 score5

/-- Modelled from the spec: the utilization penalty band of spec
section 4.3 (`>90 → −30; >80 → −20; >70 → −10; else 0`), with an absent
utilization drawing no penalty. -/
def specUtilPenalty (m : MetricSet) : ℤ :=
  if m.utilization.getD 0 > 90 then 30
  else if m.utilization.getD 0 > 80 then 20
  else if m.utilization.getD 0 > 70 then 10
  else 0

/-- Modelled from the spec: the temperature penalty band of spec
section 4.3 (`if present: >70 → −20; >60 → −10`). -/
def specTempPenalty (m : MetricSet) : ℤ :=
  match m.temperature with
  | none => 0
  | some t => if t > 70 then 20 else if t > 60 then 10 else 0

/-- Modelled from the spec: the rx_power penalty band of spec section 4.3
(`if present: <−30 → −30; <−28 → −15`). -/
def specRxPenalty (m : MetricSet) : ℤ :=
  match m.rx_power with
  | none => 0
  | some r => if r < -30 then 30 else if r < -28 then 15 else 0

/-- Modelled from the spec: the offline-ratio penalty band of spec
section 4.3 (`offline/total, only if total>0: >0.3 → −20; >0.2 → −10`). -/
def specOnuPenalty (m : MetricSet) : ℤ :=
  if m.total_onus.getD 0 > 0 then
    if (m.offline_onus.getD 0 : ℚ) / (m.total_onus.getD 0 : ℚ) > 3 / 10 then 20
    else if (m.offline_onus.getD 0 : ℚ) / (m.total_onus.getD 0 : ℚ) > 2 / 10 then 10
    else 0
  else 0

/-- Modelled from the spec: the health score as spec section 4.3 describes
it — all penalties subtracted from the same base 100, floored at 0. -/
def healthScoreSpec (m : MetricSet) : ℤ :=
  max 0 (100 - specUtilPenalty m - specTempPenalty m - specRxPenalty m - specOnuPenalty m)

/-- Per-port alert thresholds, the `pon_ports` row columns read by
`check_thresholds` (`poller.py`). -/
structure Thresholds where
  threshold_temperature_high : ℚ
  threshold_utilization_high : ℚ
  threshold_rx_power_low : ℚ
deriving DecidableEq

/-- Kind of a threshold alert (`alert['type']` in `poller.py`). -/
inductive AlertType where
  | temperature
  | utilization
  | rx_power
deriving DecidableEq

/-- A threshold alert.  The human-readable `message` string interpolates the
same triggering value as the `value` field, so only the value is carried. -/
structure Alert where
  type : AlertType
  value : ℚ
deriving DecidableEq

/-- `PONPortPoller.check_thresholds` (`poller.py` lines 322-352).  The three
checks run in sequence, appending to `alerts`.  Temperature and utilization
compare `metrics.get(name, 0)` (absent defaults to `0`); on a hit, building
the alert reads `metrics[name]`, which raises `KeyError` when the key is
absent, aborting the remaining checks — hence the `Except` result.  The
rx_power check is guarded by Python truthiness
(`metrics.get('rx_power') and metrics['rx_power'] < low`), so it fires only
for a present, nonzero rx_power below the threshold. -/
def check_thresholds (pon_port : Thresholds) (metrics : MetricSet) :
    Except PyErr (List Alert) :=
  let tempStep : Except PyErr (List Alert) :=
    if metrics.temperature.getD 0 > pon_port.threshold_temperature_high then
      match metrics.temperature with
      | some temperature => Except.ok [⟨AlertType.temperature, temperature⟩]
      | none => Except.error PyErr.keyError
    else Except.ok []
  match tempStep with
  | Except.error e => Except.error e
  | Except.ok alerts1 =>
    let utilStep : Except PyErr (List Alert) :=
      if metrics.utilization.getD 0 > pon_port.threshold_utilization_high then
        match metrics.utilization with
        | some utilization =>
          Except.ok (alerts1 ++ [⟨AlertType.utilization, utilization⟩])
        | none => Except.error PyErr.keyError
      else Except.ok alerts1
    match utilStep with
    | Except.error e => Except.error e
    | Except.ok alerts2 =>
      let alerts3 :=
        match metrics.rx_power with
        | some rx_power =>
          if rx_power ≠ 0 ∧ rx_power < pon_port.threshold_rx_power_low then
            alerts2 ++ [⟨AlertType.rx_power, rx_power⟩]
          else alerts2
        | none => alerts2
      Except.ok alerts3

/-- Alerts produced by a `check_thresholds` run; a run aborted by a
`KeyError` has dispatched none (the exception is raised while the alert
list is being built, before any alert is sent). -/
def alertsOf (r : Except PyErr (List Alert)) : List Alert :=
  match r with
  | Except.ok l => l
  | Except.error _ => []

/-- Which of the three sink writes of `poll_pon_port` raise when attempted.
This is the forced-failure knob of the failure-domain properties. -/
structure SinkFailures where
  pg : Bool
  influx : Bool
  redis : Bool
deriving DecidableEq

/-- Parameter row of the PostgreSQL latest-state `UPDATE pon_ports SET ...`
(`poller.py` lines 152-180).  Optional metrics are passed through as-is
(SQL `NULL` for an absent field); the ONU counts use
`metrics.get(name, 0)`. -/
structure PgRow where
  temperature : Option ℚ
  voltage : Option ℚ
  tx_power : Option ℚ
  rx_power : Option ℚ
  utilization : Option ℚ
  bandwidth_in : Option ℤ
  bandwidth_out : Option ℤ
  online_onus : ℤ
  offline_onus : ℤ
  total_onus : ℤ
  health_score : ℤ
deriving DecidableEq

/-- Builds the latest-state row exactly as the `conn.execute` arguments of
`poller.py` lines 168-179. -/
def pgRow (m : MetricSet) (health_score : ℤ) : PgRow :=
  { temperature := m.temperature
    voltage := m.voltage
    tx_power := m.tx_power
    rx_power := m.rx_power
    utilization := m.utilization
    bandwidth_in := m.bandwidth_in
    bandwidth_out := m.bandwidth_out
    online_onus := m.online_onus.getD 0
    offline_onus := m.offline_onus.getD 0
    total_onus := m.total_onus.getD 0
    health_score := health_score }

/-- Field set of the InfluxDB time-series point (`poller.py` lines 183-196):
every numeric field is `float(metrics.get(name) or 0)` or
`int(metrics.get(name) or 0)` — an absent field is written as `0`.  The
point carries no offline/total ONU fields.  The wall-clock `.time(...)` tag
is not modelled. -/
structure InfluxPoint where
  temperature : ℚ
  voltage : ℚ
  tx_power : ℚ
  rx_power : ℚ
  utilization : ℚ
  bandwidth_in : ℤ
  bandwidth_out : ℤ
  online_onus : ℤ
  health_score : ℤ
deriving DecidableEq

/-- Builds the time-series point fields of `poller.py` lines 183-196. -/
def influxPoint (m : MetricSet) (health_score : ℤ) : InfluxPoint :=
  { temperature := pyOrZeroQ m.temperature
    voltage := pyOrZeroQ m.voltage
    tx_power := pyOrZeroQ m.tx_power
    rx_power := pyOrZeroQ m.rx_power
    utilization := pyOrZeroQ m.utilization
    bandwidth_in := pyOrZeroZ m.bandwidth_in
    bandwidth_out := pyOrZeroZ m.bandwidth_out
    online_onus := pyOrZeroZ m.online_onus
    health_score := health_score }

/-- Value set of the Redis hash written by `poller.py` lines 205-214: each
entry is `str(metrics.get(name) or 0)` — an absent field is written as the
string of `0`.  The numeric content of each string is modelled; the ISO
timestamp entry (wall clock) is not. -/
structure RedisHash where
  temperature : ℚ
  voltage : ℚ
  tx_power : ℚ
  rx_power : ℚ
  utilization : ℚ
  online_onus : ℤ
  health_score : ℤ
deriving DecidableEq

/-- Builds the cache hash of `poller.py` lines 205-214 (TTL 300 s set just
after). -/
def redisHash (m : MetricSet) (health_score : ℤ) : RedisHash :=
  { temperature := pyOrZeroQ m.temperature
    voltage := pyOrZeroQ m.voltage
    tx_power := pyOrZeroQ m.tx_power
    rx_power := pyOrZeroQ m.rx_power
    utilization := pyOrZeroQ m.utilization
    online_onus := pyOrZeroZ m.online_onus
    health_score := health_score }

/-- One attempted sink write, with the payload handed to the sink. -/
inductive SinkWrite where
  | latest (payload : PgRow)
  | series (payload : InfluxPoint)
  | cache (payload : RedisHash)
deriving DecidableEq

/-- Which sink a write went to. -/
inductive SinkKind where
  | latest
  | series
  | cache
deriving DecidableEq

/-- Kind projection of a sink-write log. -/
def sinkKinds (l : List SinkWrite) : List SinkKind :=
  l.map (fun w =>
    match w with
    | SinkWrite.latest _ => SinkKind.latest
    | SinkWrite.series _ => SinkKind.series
    | SinkWrite.cache _ => SinkKind.cache)

/-- `PONPortPoller.poll_pon_port` (`poller.py` lines 131-223), from the
point where the metrics have been fetched.  `none` models
`snmp_get_pon_metrics` returning `None` (or an empty dict): `if not
metrics: return` exits with no writes.  Otherwise the three sink writes run
in sequence inside the single `try` block: a sink that raises is still
*attempted* (logged with its payload), but the exception jumps to the
`except` at line 222, skipping every later statement.  The returned `Bool`
is `true` when the body ran to completion without an exception. -/
def poll_pon_port (metrics : Option MetricSet) (fail : SinkFailures) :
    List SinkWrite × Bool :=
  match metrics with
  | none => ([], true)
  | some m =>
    let health_score := calculate_health_score m
    let log := [SinkWrite.latest (pgRow m health_score)]
    if fail.pg then (log, false)
    else
      let log := log ++ [SinkWrite.series (influxPoint m health_score)]
      if fail.influx then (log, false)
      else
        let log := log ++ [SinkWrite.cache (redisHash m health_score)]
        if fail.redis then (log, false)
        else (log, true)

/-- The vendor classes visible to the service: the two imported by
`poller.py` plus the two more registered in `vendors/__init__.py`. -/
inductive VendorClass where
  | zteClass
  | huaweiClass
  | fiberhomeClass
  | vsolClass
deriving DecidableEq

/-- `PONPortPoller.__init__`'s `self.vendor_map` (`poller.py` lines 43-46):
exactly the keys `ZTE` and `Huawei`, looked up case-sensitively with
`dict.get`. -/
def vendor_map : List (String × VendorClass) :=
  [("ZTE", VendorClass.zteClass), ("Huawei", VendorClass.huaweiClass)]

/-- `self.vendor_map.get(olt['vendor'])` (`poller.py` line 102). -/
def vendorMapGet (vendor : String) : Option VendorClass :=
  (vendor_map.find? (fun p => p.1 = vendor)).map (fun p => p.2)

/-- The `VENDORS` registry of `vendors/__init__.py` (lines 12-17):
upper-case keys for all four vendors. -/
def VENDORS : List (String × VendorClass) :=
  [("ZTE", VendorClass.zteClass), ("HUAWEI", VendorClass.huaweiClass),
   ("FIBERHOME", VendorClass.fiberhomeClass), ("VSOL", VendorClass.vsolClass)]

/-- Python's `str.upper()` on the ASCII vendor names in play: uppercase
every character. -/
def pyUpper (s : String) : String := String.mk (s.data.map Char.toUpper)

/-- `get_vendor` of `vendors/__init__.py`: `VENDORS.get(vendor_name.upper())`
— a case-insensitive lookup. -/
def get_vendor (vendor_name : String) : Option VendorClass :=
  (VENDORS.find? (fun p => p.1 = pyUpper vendor_name)).map (fun p => p.2)

/-- An OLT row as read by `poll_all_olts` / `poll_olt` (`poller.py`); only
the columns the control flow consults are modelled. -/
structure Olt where
  id : ℕ
  vendor : String
deriving DecidableEq

/-- External collaborators of one polling cycle, keyed by OLT id and port
number: the inventory fetches (which may raise), the metrics each port's
SNMP read produces (`none` = `snmp_get_pon_metrics` returned `None`), and
which sink writes raise for each port. -/
structure OltEnv where
  fetchPorts : ℕ → Except PyErr (List ℕ)
  portMetrics : ℕ → ℕ → Option MetricSet
  sinkFailures : ℕ → ℕ → SinkFailures
  updateLastPoll : ℕ → Except PyErr Unit

/-- Sink writes performed when `poll_pon_port` runs for port `p` of OLT
`oltId` under environment `env`. -/
def portWrites (env : OltEnv) (oltId p : ℕ) : List SinkWrite :=
  (poll_pon_port (env.portMetrics oltId p) (env.sinkFailures oltId p)).1

/-- `PONPortPoller.poll_olt` (`poller.py` lines 93-129).  The whole body is
one `try`: an unsupported vendor returns `False` before any port fetch; a
raising `fetchPorts` or `updateLastPoll` is caught at this boundary and
yields `False`.  Port polls themselves never raise (`poll_pon_port` catches
its own exceptions), so the port loop always completes.  The second
component is the list of sink writes this OLT's poll performed. -/
def poll_olt (env : OltEnv) (olt : Olt) : Bool × List SinkWrite :=
  match vendorMapGet olt.vendor with
  | none => (false, [])
  | some _ =>
    match env.fetchPorts olt.id with
    | Except.error _ => (false, [])
    | Except.ok pon_ports =>
      let writes := pon_ports.flatMap (fun p => portWrites env olt.id p)
      match env.updateLastPoll olt.id with
      | Except.error _ => (false, writes)
      | Except.ok _ => (true, writes)

/-- Aggregate outcome of one cycle (`poll_all_olts`). -/
structure CycleResult where
  results : List (Bool × List SinkWrite)
  success : ℕ
  failed : ℕ
deriving DecidableEq

/-- `PONPortPoller.poll_all_olts` (`poller.py` lines 72-91): every active
OLT is polled (`asyncio.gather` with `return_exceptions=True` collects all
outcomes without aborting), then `success` counts the results that are
`True` and `failed` is the rest. -/
def poll_all_olts (env : OltEnv) (olts : List Olt) : CycleResult :=
  let results := olts.map (fun olt => poll_olt env olt)
  let success := (results.filter (fun r => r.1)).length
  { results := results
    success := success
    failed := results.length - success }

/-- One SNMP request as issued by `snmp_get_pon_metrics` (`poller.py` lines
237-243): the per-metric OID with the port index appended, and the fixed
transport parameters `timeout=5`, `retries=1` of the
`UdpTransportTarget`. -/
structure SnmpRequest where
  oid : String
  timeout : ℕ
  retries : ℕ
deriving DecidableEq

/-- Parse-function table of a vendor class as `snmp_get_pon_metrics`
dispatches on the metric name (`poller.py` lines 253-261). -/
structure VendorParsers where
  parse_temperature : ℚ → Option ℚ
  parse_voltage : ℚ → Option ℚ
  parse_power : ℚ → Option ℚ

/-- The metric loop of `snmp_get_pon_metrics` (`poller.py` lines 234-261):
one `getCmd` per entry of `vendor_class.PON_PORT_OIDS`; an error indication
makes the loop `continue` to the next metric; a successful raw value is
parsed by the vendor function selected by the metric name (any other name
is stored as the raw integer, `0` when falsy — which is the raw value
itself).  Returns the metric dict entries and the request log, in table
order. -/
def snmpLoop (read : SnmpRequest → Except PyErr ℤ) (vendor : VendorParsers)
    (oids : List (String × String)) (port_number : ℕ) :
    List (String × Option ℚ) × List SnmpRequest :=
  match oids with
  | [] => ([], [])
  | (metric_name, base_oid) :: rest =>
    let req : SnmpRequest := ⟨base_oid ++ "." ++ toString port_number, 5, 1⟩
    let restResult := snmpLoop read vendor rest port_number
    match read req with
    | Except.error _ => (restResult.1, req :: restResult.2)
    | Except.ok value =>
      let parsed :=
        if metric_name = "temperature" then vendor.parse_temperature (value : ℚ)
        else if metric_name = "voltage" then vendor.parse_voltage (value : ℚ)
        else if metric_name = "tx_power" ∨ metric_name = "rx_power" then
          vendor.parse_power (value : ℚ)
        else some (value : ℚ)
      ((metric_name, parsed) :: restResult.1, req :: restResult.2)

/-- The ZTE parse functions in the `VendorParsers` shape used by the metric
loop, where the raw value of a successful SNMP response is never `None`. -/
def zteVendorParsers : VendorParsers :=
  { parse_temperature := fun v => ZTEVendor.parse_temperature (some v)
    parse_voltage := fun v => ZTEVendor.parse_voltage (some v)
    parse_power := fun v => ZTEVendor.parse_power (some v) }

/-- Two cycle environments agree on every OLT other than `j`: same inventory
answers, same per-port metrics and same sink behaviour. -/
def OltEnv.agreesExcept (e1 e2 : OltEnv) (j : ℕ) : Prop :=
  ∀ i, i ≠ j →
    e1.fetchPorts i = e2.fetchPorts i ∧
    e1.updateLastPoll i = e2.updateLastPoll i ∧
    (∀ p, e1.portMetrics i p = e2.portMetrics i p) ∧
    (∀ p, e1.sinkFailures i p = e2.sinkFailures i p)

/-- A concrete environment whose inventory fetch raises for every OLT; used
to instantiate the failure-isolation theorems. -/
def envFetchRaises : OltEnv :=
  { fetchPorts := fun _ => Except.error PyErr.dbError
    portMetrics := fun _ _ => none
    sinkFailures := fun _ _ => ⟨false, false, false⟩
    updateLastPoll := fun _ => Except.ok () }

/-- The spec's second health-score example metric set: utilization 50,
temperature 75, rx_power −31, 4 of 10 ONUs offline. -/
def specExample2 : MetricSet :=
  { utilization := some 50
    temperature := some 75
    rx_power := some (-31)
    total_onus := some 10
    offline_onus := some 4 }

/-! Helper lemmas. -/

/-- The sequential score mutations of `calculate_health_score` amount to
subtracting the four spec penalty bands from the base 100, floored at 0. -/
theorem health_score_decomposition (m : MetricSet) :
    calculate_health_score m = healthScoreSpec m := by
  unfold calculate_health_score healthScoreSpec specUtilPenalty specTempPenalty
    specRxPenalty specOnuPenalty
  have hU : (if m.utilization.getD 0 > 90 then (100:ℤ) - 30
      else if m.utilization.getD 0 > 80 then 100 - 20
      else if m.utilization.getD 0 > 70 then 100 - 10 else 100)
      = 100 - (if m.utilization.getD 0 > 90 then (30:ℤ)
      else if m.utilization.getD 0 > 80 then 20
      else if m.utilization.getD 0 > 70 then 10 else 0) := by
    split_ifs <;> ring
  have hO : ∀ s : ℤ, (if m.total_onus.getD 0 > 0 then
        if (m.offline_onus.getD 0 : ℚ) / (m.total_onus.getD 0 : ℚ) > 3 / 10 then s - 20
        else if (m.offline_onus.getD 0 : ℚ) / (m.total_onus.getD 0 : ℚ) > 2 / 10 then s - 10
        else s
      else s) = s - (if m.total_onus.getD 0 > 0 then
        if (m.offline_onus.getD 0 : ℚ) / (m.total_onus.getD 0 : ℚ) > 3 / 10 then (20:ℤ)
        else if (m.offline_onus.getD 0 : ℚ) / (m.total_onus.getD 0 : ℚ) > 2 / 10 then 10
        else 0
      else 0) := fun s => by split_ifs <;> ring
  rcases m.temperature with _ | t <;> rcases m.rx_power with _ | r
  · dsimp only []
    rw [hU]
    generalize (100:ℤ) - (if m.utilization.getD 0 > 90 then (30:ℤ)
      else if m.utilization.getD 0 > 80 then 20
      else if m.utilization.getD 0 > 70 then 10 else 0) = s2
    rw [sub_zero, sub_zero, hO]
  · dsimp only []
    rw [hU]
    generalize (100:ℤ) - (if m.utilization.getD 0 > 90 then (30:ℤ)
      else if m.utilization.getD 0 > 80 then 20
      else if m.utilization.getD 0 > 70 then 10 else 0) = s2
    rw [sub_zero]
    have hR : ∀ s : ℤ, (if r = 0 then s
        else if r < -30 then s - 30
        else if r < -28 then s - 15 else s)
        = s - (if r < -30 then (30:ℤ) else if r < -28 then 15 else 0) :=
      fun s => by split_ifs <;> first | ring1 | linarith
    rw [hR, hO]
  · dsimp only []
    rw [hU]
    generalize (100:ℤ) - (if m.utilization.getD 0 > 90 then (30:ℤ)
      else if m.utilization.getD 0 > 80 then 20
      else if m.utilization.getD 0 > 70 then 10 else 0) = s2
    have hT : ∀ s : ℤ, (if t = 0 then s
        else if t > 70 then s - 20
        else if t > 60 then s - 10 else s)
        = s - (if t > 70 then (20:ℤ) else if t > 60 then 10 else 0) :=
      fun s => by split_ifs <;> first | ring1 | linarith
    rw [hT, sub_zero, hO]
  · dsimp only []
    rw [hU]
    generalize (100:ℤ) - (if m.utilization.getD 0 > 90 then (30:ℤ)
      else if m.utilization.getD 0 > 80 then 20
      else if m.utilization.getD 0 > 70 then 10 else 0) = s2
    have hT : ∀ s : ℤ, (if t = 0 then s
        else if t > 70 then s - 20
        else if t > 60 then s - 10 else s)
        = s - (if t > 70 then (20:ℤ) else if t > 60 then 10 else 0) :=
      fun s => by split_ifs <;> first | ring1 | linarith
    have hR : ∀ s : ℤ, (if r = 0 then s
        else if r < -30 then s - 30
        else if r < -28 then s - 15 else s)
        = s - (if r < -30 then (30:ℤ) else if r < -28 then 15 else 0) :=
      fun s => by split_ifs <;> first | ring1 | linarith
    rw [hT, hR, hO]

/-- Every spec penalty band is non-negative and at most 30. -/
theorem spec_penalties_bounded (m : MetricSet) :
    (0 ≤ specUtilPenalty m ∧ specUtilPenalty m ≤ 30) ∧
    (0 ≤ specTempPenalty m ∧ specTempPenalty m ≤ 30) ∧
    (0 ≤ specRxPenalty m ∧ specRxPenalty m ≤ 30) ∧
    (0 ≤ specOnuPenalty m ∧ specOnuPenalty m ≤ 30) := by
  unfold specUtilPenalty specTempPenalty specRxPenalty specOnuPenalty
  refine ⟨?_, ?_, ?_, ?_⟩
  · split_ifs <;> norm_num
  · rcases m.temperature with _ | t <;> simp only [] <;>
      first | (split_ifs <;> norm_num) | norm_num
  · rcases m.rx_power with _ | r <;> simp only [] <;>
      first | (split_ifs <;> norm_num) | norm_num
  · split_ifs <;> norm_num

/-- Counting the `True` results of a cycle is counting the OLTs whose poll
returned `true`. -/
theorem poll_filter_count (env : OltEnv) (olts : List Olt) :
    ((olts.map (poll_olt env)).filter (fun r => r.1)).length
      = (olts.filter (fun o => (poll_olt env o).1)).length := by
  induction olts with
  | nil => rfl
  | cons head tail ih =>
    simp only [List.map_cons, List.filter_cons]
    cases hb : (poll_olt env head).1 <;> simp [hb, ih]

/-- The successful and failed OLTs of a cycle partition the cycle's OLTs. -/
theorem poll_filter_split (env : OltEnv) (olts : List Olt) :
    (olts.filter (fun o => (poll_olt env o).1)).length
      + (olts.filter (fun o => !(poll_olt env o).1)).length = olts.length := by
  induction olts with
  | nil => rfl
  | cons head tail ih =>
    simp only [List.filter_cons]
    cases hb : (poll_olt env head).1 <;> simp [hb] <;> omega

/-! Claim theorems. -/

/-- C1 counterexample: the claim says a failure in one sink never prevents
the attempts of the other two, but a forced failure of the latest-state
(PostgreSQL) write makes `poll_pon_port` skip the time-series and cache
writes entirely: only the latest-state write is attempted. -/
theorem C1_sink_counterexample :
    sinkKinds (poll_pon_port (some {}) ⟨true, false, false⟩).1 = [SinkKind.latest] ∧
    SinkKind.series ∉ sinkKinds (poll_pon_port (some {}) ⟨true, false, false⟩).1 ∧
    SinkKind.cache ∉ sinkKinds (poll_pon_port (some {}) ⟨true, false, false⟩).1 := by
  refine ⟨by norm_num [poll_pon_port, sinkKinds],
    by simp [poll_pon_port, sinkKinds], by simp [poll_pon_port, sinkKinds]⟩

/-- C1 amended: the three sink writes of `poll_pon_port` run sequentially
under one exception handler: the latest-state write is always attempted, the
time-series write is attempted iff the latest-state write did not raise, and
the cache write is attempted iff neither earlier write raised; in
particular a forced failure in the cache sink (the last write) leaves the
latest-state and time-series writes attempted. -/
theorem C1_sink_sequence :
    (∀ (m : MetricSet) (fail : SinkFailures),
        SinkKind.latest ∈ sinkKinds (poll_pon_port (some m) fail).1 ∧
        (SinkKind.series ∈ sinkKinds (poll_pon_port (some m) fail).1 ↔ fail.pg = false) ∧
        (SinkKind.cache ∈ sinkKinds (poll_pon_port (some m) fail).1 ↔
          fail.pg = false ∧ fail.influx = false)) ∧
    (∀ m : MetricSet,
        sinkKinds (poll_pon_port (some m) ⟨false, false, true⟩).1 =
          [SinkKind.latest, SinkKind.series, SinkKind.cache]) := by
  constructor
  · intro m fail
    rcases fail with ⟨pg, influx, redis⟩
    cases pg <;> cases influx <;> cases redis <;> simp [poll_pon_port, sinkKinds]
  · intro m
    simp [poll_pon_port, sinkKinds]

/-- C2 counterexample: with rx_power absent, the time-series point and the
cache hash both record rx_power as `0`, equal to what they record for a
literal 0 dBm reading — so two of the three sinks do not keep the field
distinguishable from zero (the latest-state row does keep `none`). -/
theorem C2_absent_counterexample :
    (poll_pon_port (some ({} : MetricSet)) ⟨false, false, false⟩).1 =
      [SinkWrite.latest (pgRow {} 100), SinkWrite.series (influxPoint {} 100),
       SinkWrite.cache (redisHash {} 100)] ∧
    ({} : MetricSet).rx_power = none ∧
    (influxPoint {} 100).rx_power = 0 ∧
    (redisHash {} 100).rx_power = 0 ∧
    influxPoint {} 100 = influxPoint { rx_power := some 0 } 100 ∧
    redisHash {} 100 = redisHash { rx_power := some 0 } 100 := by
  refine ⟨?_, rfl, rfl, rfl, rfl, rfl⟩
  norm_num [poll_pon_port, calculate_health_score]

/-- C2 amended: only the latest-state row passes tx_power/rx_power through
as optionals (absent stays absent, and differs from a present 0); the
time-series and cache writes apply the `or 0` coercion, which maps an
absent field and a literal 0 reading to the same stored 0, while passing
any present value through unchanged. -/
theorem C2_absent_coercion :
    (∀ (m : MetricSet) (hs : ℤ),
        (pgRow m hs).tx_power = m.tx_power ∧
        (pgRow m hs).rx_power = m.rx_power ∧
        (influxPoint m hs).tx_power = pyOrZeroQ m.tx_power ∧
        (influxPoint m hs).rx_power = pyOrZeroQ m.rx_power ∧
        (redisHash m hs).tx_power = pyOrZeroQ m.tx_power ∧
        (redisHash m hs).rx_power = pyOrZeroQ m.rx_power) ∧
    pyOrZeroQ none = 0 ∧
    (∀ v : ℚ, pyOrZeroQ (some v) = v) ∧
    (pgRow {} 100).rx_power ≠ (pgRow { rx_power := some 0 } 100).rx_power := by
  refine ⟨fun m hs => ⟨rfl, rfl, rfl, rfl, rfl, rfl⟩, rfl, ?_, by simp [pgRow]⟩
  intro v
  simp only [pyOrZeroQ]
  split_ifs with h
  · exact h.symm
  · rfl

/-- C3 counterexample: ZTE's `calculate_utilization` is not the shared
reference formula: its result on negative counters escapes the `[0, 100]`
clamp entirely (`-200`), and on positive counters it differs by the
missing `* 8` bit conversion (10 versus 80 for 1 GB over one second at
10000 Mbps). -/
theorem C3_utilization_counterexample :
    ZTEVendor.calculate_utilization (some (-20000000000)) (some 0) = -200 ∧
    refUtilization (-20000000000) 0 1 2500 = 0 ∧
    ZTEVendor.calculate_utilization (some (-20000000000)) (some 0) ≠
      refUtilization (-20000000000) 0 1 2500 ∧
    ZTEVendor.calculate_utilization (some 1000000000) (some 0) = 10 ∧
    refUtilization 1000000000 0 1 10000 = 80 ∧
    ZTEVendor.calculate_utilization (some 1000000000) (some 0) ≠
      refUtilization 1000000000 0 1 10000 := by
  norm_num [ZTEVendor.calculate_utilization, refUtilization, min_def, max_def]

/-- C3 amended: the VSOL and FiberHome profiles compute exactly the shared
reference formula whenever the interval and the max bandwidth are positive
(both return 0 under their `interval <= 0 or max_bandwidth <= 0` guard);
VSOL defaults the max bandwidth to 2500 Mbps while FiberHome requires it
explicitly; ZTE's `calculate_utilization` is a different function of
`(bandwidth_in, bandwidth_out, port_capacity = 10^10)` with no bit
conversion, no interval division and no lower clamp. -/
theorem C3_utilization_amended :
    ∀ bytesIn bytesOut intervalSeconds maxBandwidthMbps : ℚ,
    0 < intervalSeconds → 0 < maxBandwidthMbps →
    VSOLVendor.calculate_utilization bytesIn bytesOut intervalSeconds maxBandwidthMbps
      = refUtilization bytesIn bytesOut intervalSeconds maxBandwidthMbps ∧
    FiberHomeVendor.calculate_utilization bytesIn bytesOut intervalSeconds maxBandwidthMbps
      = refUtilization bytesIn bytesOut intervalSeconds maxBandwidthMbps := by
  intro b1 b2 i mb hi hmb
  have hg : ¬(i ≤ 0 ∨ mb ≤ 0) := by push_neg; exact ⟨hi, hmb⟩
  unfold VSOLVendor.calculate_utilization FiberHomeVendor.calculate_utilization
    refUtilization
  rw [if_neg hg]
  dsimp only []
  constructor <;> rw [min_comm _ (100:ℚ), max_comm _ (0:ℚ)]

/-- C3 witness: the amended equality instantiated at one second of 125 MB
on a 2500 Mbps GPON port. -/
theorem C3_utilization_amended_witness :
    (0 : ℚ) < 1 ∧ (0 : ℚ) < 2500 ∧
    (VSOLVendor.calculate_utilization 125000000 0 1 2500
        = refUtilization 125000000 0 1 2500 ∧
      FiberHomeVendor.calculate_utilization 125000000 0 1 2500
        = refUtilization 125000000 0 1 2500) :=
  ⟨by norm_num, by norm_num,
    C3_utilization_amended 125000000 0 1 2500 (by norm_num) (by norm_num)⟩

/-- C4: `calculate_health_score` equals the spec shape — base 100 minus the
four independent penalty bands, floored at 0; the spec's concrete example
scores 70; and every score lies in `[0, 100]`. -/
theorem C4_health_score_shape :
    (∀ m : MetricSet, calculate_health_score m = healthScoreSpec m) ∧
    calculate_health_score { utilization := some 95, total_onus := some 0 } = 70 ∧
    (∀ m : MetricSet, 0 ≤ calculate_health_score m ∧ calculate_health_score m ≤ 100) := by
  refine ⟨health_score_decomposition, by norm_num [calculate_health_score], ?_⟩
  intro m
  rw [health_score_decomposition m]
  unfold healthScoreSpec
  obtain ⟨⟨h1, _⟩, ⟨h2, _⟩, ⟨h3, _⟩, ⟨h4, _⟩⟩ := spec_penalties_bounded m
  exact ⟨le_max_left _ _, max_le (by norm_num) (by omega)⟩

/-- C5 counterexample: on the spec's second example metric set the code
returns 30, not 40 — temperature 75 falls in the `> 70` band and costs 20,
not the 10 the claim asserts. -/
theorem C5_health_example_counterexample :
    calculate_health_score specExample2 = 30 ∧ calculate_health_score specExample2 ≠ 40 := by
  constructor <;> norm_num [calculate_health_score, specExample2]

/-- C5 amended: the metric set (utilization 50, temperature 75, rx_power
−31, 4 of 10 ONUs offline) scores 30: 100 − 20 (temperature > 70) − 30
(rx_power < −30) − 20 (offline ratio 0.4 > 0.3). -/
theorem C5_health_example_amended :
    calculate_health_score specExample2 = 30 := by
  norm_num [calculate_health_score, specExample2]

/-- C6: VSOL `parse_power` returns absent exactly when `raw/100` is 0,
below −40 or above 10 (the boundaries −40 and 10 themselves parse as
valid), and otherwise returns `raw/100` rounded to two decimals; in
particular raw 0 and raw 1500 are absent while raw −4000 and raw 1000
parse to −40 and 10. -/
theorem C6_vsol_parse_power :
    (∀ raw : ℚ, VSOLVendor.parse_power raw = none ↔
      (raw / 100 = 0 ∨ raw / 100 < -40 ∨ raw / 100 > 10)) ∧
    (∀ raw : ℚ, VSOLVendor.parse_power raw = none ∨
      VSOLVendor.parse_power raw = some (pythonRound2 (raw / 100))) ∧
    VSOLVendor.parse_power 0 = none ∧
    VSOLVendor.parse_power 1500 = none ∧
    VSOLVendor.parse_power (-4000) = some (-40) ∧
    VSOLVendor.parse_power 1000 = some 10 := by
  refine ⟨?_, ?_, by norm_num [VSOLVendor.parse_power],
    by norm_num [VSOLVendor.parse_power],
    by norm_num [VSOLVendor.parse_power, pythonRound2, roundHalfEven],
    by norm_num [VSOLVendor.parse_power, pythonRound2, roundHalfEven]⟩
  · intro raw
    simp only [VSOLVendor.parse_power]
    split_ifs with h
    · exact iff_of_true rfl h
    · exact iff_of_false (by simp) h
  · intro raw
    simp only [VSOLVendor.parse_power]
    split_ifs with h
    · exact Or.inl rfl
    · exact Or.inr rfl

/-- C7 counterexample: the claim's "alert iff the metric is present and
violates its threshold" fails for rx_power: a present reading of exactly
0 dBm below a positive threshold is suppressed by the Python truthiness
guard, so no rx_power alert is emitted. -/
theorem C7_threshold_counterexample :
    ¬ (∀ (thr : Thresholds) (m : MetricSet),
        (∃ a ∈ alertsOf (check_thresholds thr m), a.type = AlertType.rx_power) ↔
        (∃ v, m.rx_power = some v ∧ v < thr.threshold_rx_power_low)) := by
  intro hclaim
  have h2 := (hclaim ⟨60, 80, 5⟩ { rx_power := some 0 }).mpr ⟨0, rfl, by norm_num⟩
  norm_num [check_thresholds, alertsOf] at h2

/-- C7 amended: when `check_thresholds` completes without a `KeyError`, a
temperature (resp. utilization) alert is emitted iff the field's
absent-defaults-to-0 value exceeds its threshold, and an rx_power alert is
emitted iff rx_power is present, nonzero and below its threshold; on the
spec's example (thresholds 60/80/−28, metrics 65/50/−20) exactly one
alert is emitted, of kind temperature. -/
theorem C7_threshold_amended :
    (∀ (thr : Thresholds) (m : MetricSet) (L : List Alert),
        check_thresholds thr m = Except.ok L →
        (((∃ a ∈ L, a.type = AlertType.temperature) ↔
            m.temperature.getD 0 > thr.threshold_temperature_high) ∧
         ((∃ a ∈ L, a.type = AlertType.utilization) ↔
            m.utilization.getD 0 > thr.threshold_utilization_high) ∧
         ((∃ a ∈ L, a.type = AlertType.rx_power) ↔
            ∃ v, m.rx_power = some v ∧ v ≠ 0 ∧ v < thr.threshold_rx_power_low))) ∧
    check_thresholds ⟨60, 80, -28⟩
      { temperature := some 65, utilization := some 50, rx_power := some (-20) }
      = Except.ok [⟨AlertType.temperature, 65⟩] := by
  constructor
  · intro thr m L h
    unfold check_thresholds at h
    rcases hT : m.temperature with _ | t <;>
    rcases hU : m.utilization with _ | u <;>
    rcases hR : m.rx_power with _ | r <;>
    simp only [hT, hU, hR, Option.getD_some, Option.getD_none] at h ⊢ <;>
    split_ifs at h <;>
    simp_all <;>
    subst h <;>
    simp_all
  · norm_num [check_thresholds]

/-- C7 witness: the characterization applied to the spec's example run,
whose single emitted alert is the temperature alert. -/
theorem C7_threshold_amended_witness :
    (∃ a ∈ [(⟨AlertType.temperature, (65 : ℚ)⟩ : Alert)],
        a.type = AlertType.temperature) ↔ ((65 : ℚ) > 60) :=
  (C7_threshold_amended.1 ⟨60, 80, -28⟩
    { temperature := some 65, utilization := some 50, rx_power := some (-20) }
    [⟨AlertType.temperature, 65⟩] (by norm_num [check_thresholds])).1

/-- C8: a raising inventory fetch or an unsupported vendor makes that OLT's
poll return `False` with no writes; a cycle's success and failed counters
count exactly the OLTs whose own poll returned `True` (resp. `False`) and
always sum to the number of OLTs; and an OLT's outcome depends only on the
environment at its own id, so changing another OLT's behaviour leaves it
unchanged — no failure aborts the cycle. -/
theorem C8_olt_isolation :
    (∀ (env : OltEnv) (olt : Olt) (e : PyErr),
        env.fetchPorts olt.id = Except.error e → poll_olt env olt = (false, [])) ∧
    (∀ (env : OltEnv) (olt : Olt),
        vendorMapGet olt.vendor = none → poll_olt env olt = (false, [])) ∧
    (∀ (env : OltEnv) (olts : List Olt),
        (poll_all_olts env olts).results = olts.map (poll_olt env) ∧
        (poll_all_olts env olts).success =
          (olts.filter (fun o => (poll_olt env o).1)).length ∧
        (poll_all_olts env olts).failed =
          (olts.filter (fun o => !(poll_olt env o).1)).length ∧
        (poll_all_olts env olts).success + (poll_all_olts env olts).failed
          = olts.length) ∧
    (∀ (e1 e2 : OltEnv) (j : ℕ), OltEnv.agreesExcept e1 e2 j →
        ∀ olt : Olt, olt.id ≠ j → poll_olt e1 olt = poll_olt e2 olt) := by
  refine ⟨?_, ?_, ?_, ?_⟩
  · intro env olt e h
    unfold poll_olt
    cases hv : vendorMapGet olt.vendor
    · rfl
    · rw [h]
  · intro env olt h
    unfold poll_olt
    rw [h]
  · intro env olts
    have hc := poll_filter_count env olts
    have hs := poll_filter_split env olts
    have hlen : (olts.map (poll_olt env)).length = olts.length := List.length_map _ _
    have he : olts.map (fun olt => poll_olt env olt) = olts.map (poll_olt env) := rfl
    unfold poll_all_olts
    refine ⟨rfl, hc, ?_, ?_⟩ <;> dsimp only [] <;> rw [he] <;> omega
  · intro e1 e2 j hag olt hne
    obtain ⟨hf, hu, hm, hs⟩ := hag olt.id hne
    unfold poll_olt
    rw [hf, hu]
    have hw : portWrites e1 olt.id = portWrites e2 olt.id := by
      funext p
      unfold portWrites
      rw [hm p, hs p]
    rw [hw]

/-- C8 witness: an OLT whose port fetch raises is counted failed with no
writes. -/
theorem C8_olt_isolation_witness :
    envFetchRaises.fetchPorts 1 = Except.error PyErr.dbError ∧
    poll_olt envFetchRaises ⟨1, "ZTE"⟩ = (false, []) :=
  ⟨rfl, C8_olt_isolation.1 envFetchRaises ⟨1, "ZTE"⟩ PyErr.dbError rfl⟩

/-- C9: the metric loop issues exactly one request per entry of the
vendor's identifier table — in table order, each with the fixed transport
parameters timeout 5 and retries 1, and independently of every response
(error indications make it skip to the next metric, never retry); for the
ZTE table that is exactly 7 requests. -/
theorem C9_single_request :
    (∀ (read : SnmpRequest → Except PyErr ℤ) (vendor : VendorParsers)
        (oids : List (String × String)) (port_number : ℕ),
        (snmpLoop read vendor oids port_number).2 =
          oids.map (fun p => ⟨p.2 ++ "." ++ toString port_number, 5, 1⟩)) ∧
    (∀ (read : SnmpRequest → Except PyErr ℤ) (port_number : ℕ),
        ((snmpLoop read zteVendorParsers ZTEVendor.PON_PORT_OIDS port_number).2).length = 7 ∧
        (∀ req ∈ (snmpLoop read zteVendorParsers ZTEVendor.PON_PORT_OIDS port_number).2,
          req.timeout = 5 ∧ req.retries = 1)) := by
  have hgen : ∀ (read : SnmpRequest → Except PyErr ℤ) (vendor : VendorParsers)
      (oids : List (String × String)) (port_number : ℕ),
      (snmpLoop read vendor oids port_number).2 =
        oids.map (fun p => ⟨p.2 ++ "." ++ toString port_number, 5, 1⟩) := by
    intro read vendor oids port
    induction oids with
    | nil => rfl
    | cons head tail ih =>
      rcases head with ⟨metric_name, base_oid⟩
      simp only [snmpLoop, List.map_cons]
      cases read ⟨base_oid ++ "." ++ toString port, 5, 1⟩ <;> simp [ih]
  refine ⟨hgen, ?_⟩
  intro read port
  rw [hgen]
  constructor
  · simp [ZTEVendor.PON_PORT_OIDS]
  · intro req hreq
    simp only [ZTEVendor.PON_PORT_OIDS, List.map_cons, List.map_nil,
      List.mem_cons, List.not_mem_nil, or_false] at hreq
    rcases hreq with rfl | rfl | rfl | rfl | rfl | rfl | rfl <;> exact ⟨rfl, rfl⟩

/-- C9 witness: the request log of a run whose every read fails is still
one request per ZTE table entry. -/
theorem C9_single_request_witness :
    (snmpLoop (fun _ => Except.error PyErr.snmpError) zteVendorParsers
        ZTEVendor.PON_PORT_OIDS 3).2 =
      ZTEVendor.PON_PORT_OIDS.map (fun p => ⟨p.2 ++ "." ++ toString 3, 5, 1⟩) :=
  C9_single_request.1 (fun _ => Except.error PyErr.snmpError) zteVendorParsers
    ZTEVendor.PON_PORT_OIDS 3

/-- C10: the orchestrator's dispatch table holds exactly the case-sensitive
tags `ZTE` and `Huawei`; every other tag — including `FIBERHOME` and
`VSOL`, which the (case-insensitive) vendor registry resolves — makes
`poll_olt` return `False` with no port fetched or polled, under every
environment. -/
theorem C10_vendor_dispatch :
    vendor_map.map Prod.fst = ["ZTE", "Huawei"] ∧
    VENDORS.map Prod.fst = ["ZTE", "HUAWEI", "FIBERHOME", "VSOL"] ∧
    (∀ (env : OltEnv) (olt : Olt), vendorMapGet olt.vendor = none →
        poll_olt env olt = (false, [])) ∧
    vendorMapGet "ZTE" = some VendorClass.zteClass ∧
    vendorMapGet "Huawei" = some VendorClass.huaweiClass ∧
    vendorMapGet "FIBERHOME" = none ∧
    vendorMapGet "VSOL" = none ∧
    vendorMapGet "HUAWEI" = none ∧
    vendorMapGet "huawei" = none ∧
    get_vendor "FIBERHOME" = some VendorClass.fiberhomeClass ∧
    get_vendor "FiberHome" = some VendorClass.fiberhomeClass ∧
    get_vendor "VSOL" = some VendorClass.vsolClass ∧
    get_vendor "vsol" = some VendorClass.vsolClass := by
  refine ⟨by decide, by decide, ?_, by decide, by decide, by decide, by decide,
    by decide, by decide, by decide, by decide, by decide, by decide⟩
  intro env olt h
  unfold poll_olt
  rw [h]

/-- C10 witness: an active VSOL OLT is rejected by the dispatch table and
its poll returns `False` without consulting the environment. -/
theorem C10_vendor_dispatch_witness :
    vendorMapGet "VSOL" = none ∧
    poll_olt envFetchRaises ⟨2, "VSOL"⟩ = (false, []) :=
  ⟨by decide, C10_vendor_dispatch.2.2.1 envFetchRaises ⟨2, "VSOL"⟩ (by decide)⟩

end PonMonitoring
